import Mathlib

/-!
Shallow embedding of the tile-based dungeon floor core of the `caves`
repository (`src/map.rs`, `src/map/floor_map/tile.rs`): coordinate types,
the tile grid, rooms, the floor map's spatial queries, and the per-cell
tile contents. Panics (assertion failures, division by zero, index out of
range, and — matching a build with debug assertions enabled — `debug_assert!`
and arithmetic underflow) are modelled by `Option`-returning functions that
yield `none` on the panicking path.

Components whose source files are not part of the given material
(`grid.rs`, `grid_size.rs`, `room.rs`, `tile_pos.rs`, `tile_rect.rs`,
the grid's cell enum, and the `sdl2` `Rect`/`Point` value types) are
modelled from the specification; each such definition carries a doc
comment starting with `Modelled from the spec:`.
-/

set_option autoImplicit false

namespace Caves

/-- Modelled from the spec: an `sdl2` pixel point with signed (`i32`)
coordinates. Machine-width overflow plays no role in the modelled
queries, so coordinates are unbounded integers. -/
structure Point where
  x : Int
  y : Int
  deriving DecidableEq, Repr

/-- Modelled from the spec: an `sdl2` pixel rectangle with a signed (`i32`)
origin and an unsigned (`u32`) width and height. -/
structure Rect where
  x : Int
  y : Int
  w : Nat
  h : Nat
  deriving DecidableEq, Repr

/-- Embeds `GridSize` (`grid_size.rs` is not in the given material).
Modelled from the spec: non-negative whole tile counts `{rows, cols}`. -/
structure GridSize where
  rows : Nat
  cols : Nat
  deriving DecidableEq, Repr

/-- Embeds `TilePos` (`tile_pos.rs` is not in the given material).
Modelled from the spec: zero-based grid coordinates `{row, col}` (`usize`). -/
structure TilePos where
  row : Nat
  col : Nat
  deriving DecidableEq, Repr

/-- Modelled from the spec: tile→world conversion — multiply row/col by the
tile size to get the pixel rectangle's top-left corner (`x` from `col`,
`y` from `row`). -/
def TilePos.top_left (p : TilePos) (tile_size : Int) : Point :=
  ⟨p.col * tile_size, p.row * tile_size⟩

/-- Modelled from the spec: the bottom-right pixel corner of a tile — the
tile spans exactly `tile_size × tile_size` pixels, so the corner one past
the tile's extent is `(col+1, row+1)` scaled by the tile size. -/
def TilePos.bottom_right (p : TilePos) (tile_size : Int) : Point :=
  ⟨(p.col + 1) * tile_size, (p.row + 1) * tile_size⟩

/-- Embeds `RoomId(usize)`: the position of a room within the floor map's room
collection (src/map.rs). -/
structure RoomId where
  val : Nat
  deriving DecidableEq, Repr

/-- Embeds `TileRect` (`tile_rect.rs` is not in the given material).
Modelled from the spec: a rectangular tile region as origin + size. -/
structure TileRect where
  top_left : TilePos
  dimensions : GridSize
  deriving DecidableEq, Repr

/-- Modelled from the spec: the full set of tile positions a `TileRect`
covers, in row-major order. -/
def TileRect.tile_positions (r : TileRect) : List TilePos :=
  (List.range r.dimensions.rows).flatMap fun i =>
    (List.range r.dimensions.cols).map fun j =>
      ⟨r.top_left.row + i, r.top_left.col + j⟩

/-- Embeds `RoomType` (`room.rs` is not in the given material).
Modelled from the spec: one of Normal / Challenge / PlayerStart /
TreasureChamber, purely descriptive. -/
inductive RoomType where
  | Normal
  | Challenge
  | PlayerStart
  | TreasureChamber
  deriving DecidableEq, Repr

/-- Embeds `Room` (`room.rs` is not in the given material).
Modelled from the spec: `{boundary: TileRect, room_type: RoomType}`. -/
structure Room where
  boundary : TileRect
  room_type : RoomType
  deriving DecidableEq, Repr

/-- Modelled from the spec: `Room::new(boundary)` — the room type defaults
to `Normal` until set by the generation collaborator. -/
def Room.new (boundary : TileRect) : Room :=
  ⟨boundary, RoomType.Normal⟩

/-- The grid's cell type (the enum matched as `Tile::{Floor, Wall, Empty}`
in src/map.rs; its defining file is not in the given material).
Modelled from the spec: classification is one of `Empty`,
`Wall {optional room membership}`, `Floor {room membership}`. Per-cell
fields other than the classification (object, walls, texture handle) are
omitted: no modelled query inspects them. -/
inductive MapTile where
  | Empty
  | Wall (room : Option RoomId)
  | Floor (room_id : RoomId)
  deriving DecidableEq, Repr

/-- Modelled from the spec: a cell counts toward a room's exact area iff it
is classified `Floor` with a matching `RoomId`. -/
def MapTile.is_room_floor (t : MapTile) (room_id : RoomId) : Bool :=
  match t with
  | MapTile.Floor r => r = room_id
  | _ => false

/-- Embeds `TileGrid` (`grid.rs` is not in the given material).
Modelled from the spec: a dense, fixed-size 2D container of cells addressed
by `TilePos`, dimensions fixed at construction; represented as fixed
dimensions plus a total cell function (dense storage), with bounds-checked
access layered on top. -/
structure TileGrid where
  dim : GridSize
  cells : Nat → Nat → MapTile

/-- Modelled from the spec: `TileGrid::new(size)` — created filled with
`Empty` cells. -/
def TileGrid.new (size : GridSize) : TileGrid :=
  ⟨size, fun _ _ => MapTile.Empty⟩

/-- Modelled from the spec: `rows_len` — grid row count, constant after
construction. -/
def TileGrid.rows_len (g : TileGrid) : Nat := g.dim.rows

/-- Modelled from the spec: `cols_len` — grid column count, constant after
construction. -/
def TileGrid.cols_len (g : TileGrid) : Nat := g.dim.cols

/-- Modelled from the spec: bounds-checked `get` by `TilePos`; out-of-range
access is a programming error and fails fast (`none`). -/
def TileGrid.get (g : TileGrid) (pos : TilePos) : Option MapTile :=
  if pos.row < g.dim.rows ∧ pos.col < g.dim.cols then
    some (g.cells pos.row pos.col)
  else
    none

/-- Modelled from the spec: bounds-checked in-place mutation of one cell
(the `get_mut` counterpart used to carve floors/walls during generation). -/
def TileGrid.set (g : TileGrid) (pos : TilePos) (t : MapTile) : Option TileGrid :=
  if pos.row < g.dim.rows ∧ pos.col < g.dim.cols then
    some ⟨g.dim, fun r c => if r = pos.row ∧ c = pos.col then t else g.cells r c⟩
  else
    none

/-- Modelled from the spec: `tile_positions_within(origin, size)` — every
`TilePos` inside the rectangle starting at `origin` with the given
`GridSize`, row-major, bounded by the rectangle (not re-clamped). -/
def TileGrid.tile_positions_within (origin : TilePos) (size : GridSize) : List TilePos :=
  TileRect.tile_positions ⟨origin, size⟩

/-- Embeds `FloorMap` (src/map.rs): one grid, the ordered room collection indexed
by `RoomId`, and the pixel edge length of one tile (`u32`). -/
structure FloorMap where
  grid : TileGrid
  rooms : List Room
  tile_size : Nat

/-- Embeds `FloorMap::new(size, tile_size)` (src/map.rs): a grid of `Empty` cells,
an empty room collection. -/
def FloorMap.new (size : GridSize) (tile_size : Nat) : FloorMap :=
  ⟨TileGrid.new size, [], tile_size⟩

/-- Embeds `FloorMap::nrooms` (src/map.rs). -/
def FloorMap.nrooms (m : FloorMap) : Nat := m.rooms.length

/-- Embeds `FloorMap::rooms` (src/map.rs): `(RoomId, Room)` pairs in append order,
via `iter().enumerate()`. -/
def FloorMap.rooms_list (m : FloorMap) : List (RoomId × Room) :=
  (m.rooms.enum).map fun ir => (⟨ir.1⟩, ir.2)

/-- Embeds `FloorMap::room(id)` (src/map.rs): `&self.rooms[room_id.0]`; an
out-of-range index panics (`none`). -/
def FloorMap.room (m : FloorMap) (room_id : RoomId) : Option Room :=
  m.rooms[room_id.val]?

/-- Embeds `FloorMap::room_mut(id)` (src/map.rs) exposes `&mut self.rooms[room_id.0]`;
mutation through it replaces that room's data in place. An out-of-range
index panics (`none`). -/
def FloorMap.room_mut_set (m : FloorMap) (room_id : RoomId) (r : Room) : Option FloorMap :=
  if room_id.val < m.rooms.length then
    some ⟨m.grid, m.rooms.set room_id.val r, m.tile_size⟩
  else
    none

/-- Embeds `FloorMap::add_room(boundary)` (src/map.rs): push `Room::new(boundary)`
and return `RoomId(rooms.len() - 1)` together with the updated map. -/
def FloorMap.add_room (m : FloorMap) (boundary : TileRect) : RoomId × FloorMap :=
  let rooms := m.rooms ++ [Room.new boundary]
  (⟨rooms.length - 1⟩, ⟨m.grid, rooms, m.tile_size⟩)

/-- Embeds `FloorMap::room_exact_area(id)` (src/map.rs): count the tile positions
within the room's boundary whose grid cell `is_room_floor` for that id.
`room(id)` and each `grid().get(pos)` panic (`none`) when out of range. -/
def FloorMap.room_exact_area (m : FloorMap) (room_id : RoomId) : Option Nat :=
  match m.room room_id with
  | none => none
  | some r =>
    let ps := r.boundary.tile_positions
    if ps.all (fun p => (m.grid.get p).isSome) then
      some (ps.filter (fun p =>
        ((m.grid.get p).map (fun t => t.is_room_floor room_id)).getD false)).length
    else
      none

/-- Embeds `FloorMap::tile_rect(top_left, bottom_right)` (src/map.rs): the pixel
rectangle spanning both corner tiles inclusively. The `debug_assert!`
guarding `top_left ≤ bottom_right` (both coordinates) fails fast (`none`)
when violated. -/
def FloorMap.tile_rect (m : FloorMap) (tl : TilePos) (br : TilePos) : Option Rect :=
  if tl.row ≤ br.row ∧ tl.col ≤ br.col then
    let tlp := tl.top_left (m.tile_size : Int)
    let brp := br.bottom_right (m.tile_size : Int)
    some ⟨tlp.x, tlp.y, (brp.x - tlp.x).toNat, (brp.y - tlp.y).toNat⟩
  else
    none

/-- Embeds `FloorMap::world_to_tile_pos(point)` (src/map.rs): assert both
coordinates non-negative, integer-divide by `tile_size` (division by zero
panics), then assert the row/col are inside the grid. Panics are `none`. -/
def FloorMap.world_to_tile_pos (m : FloorMap) (point : Point) : Option TilePos :=
  if point.x ≥ 0 ∧ point.y ≥ 0 then
    if m.tile_size = 0 then
      none
    else
      let row := point.y.toNat / m.tile_size
      let col := point.x.toNat / m.tile_size
      if row < m.grid.rows_len ∧ col < m.grid.cols_len then
        some ⟨row, col⟩
      else
        none
  else
    none

/-- Embeds `FloorMap::grid_area_within(bounds)` (src/map.rs): clamp the origin to
zero, convert to `usize`, divide start and (clamped origin + size) by
`tile_size`, clamp both to `[0, rows_len-1] × [0, cols_len-1]`, and return
the inclusive window as origin + size. Division by `tile_size = 0` panics,
and `rows_len-1`/`cols_len-1` underflow on an empty grid dimension (debug
build); panics are `none`. -/
def FloorMap.grid_area_within (m : FloorMap) (bounds : Rect) : Option (TilePos × GridSize) :=
  let x := (max bounds.x 0).toNat
  let y := (max bounds.y 0).toNat
  let width := bounds.w
  let height := bounds.h
  if m.tile_size = 0 then
    none
  else if m.grid.rows_len = 0 ∨ m.grid.cols_len = 0 then
    none
  else
    let clamp_row := fun (row : Nat) => min (max row 0) (m.grid.rows_len - 1)
    let clamp_col := fun (col : Nat) => min (max col 0) (m.grid.cols_len - 1)
    let start_row := clamp_row (y / m.tile_size)
    let start_col := clamp_col (x / m.tile_size)
    let end_row := clamp_row ((y + height) / m.tile_size)
    let end_col := clamp_col ((x + width) / m.tile_size)
    some (⟨start_row, start_col⟩,
      ⟨end_row - start_row + 1, end_col - start_col + 1⟩)

/-- Embeds `Item` (src/map/floor_map/tile.rs): the content of a chest. The
`stength` field name reproduces the source's spelling; `u32` is `Nat`. -/
inductive Item where
  | TreasureKey
  | RoomKey
  | Potion (stength : Nat)
  deriving DecidableEq, Repr

/-- Embeds `TileType` (src/map/floor_map/tile.rs): passageway, or part of a given
room. -/
inductive TileType where
  | Passageway
  | Room (id : RoomId)
  deriving DecidableEq, Repr

/-- Embeds `TileObject` (src/map/floor_map/tile.rs): the object or item placed at
a particular tile. Gate ids (`usize`) are `Nat`; the `f64` spawn
probability is kept abstract as a type parameter `P`. -/
inductive TileObject (P : Type) where
  | ToNextLevel (id : Nat)
  | ToPrevLevel (id : Nat)
  | EnemySpawn (probability : P)
  | Chest (item : Item)

/-- Embeds `Tile` (src/map/floor_map/tile.rs): per-cell record. `TileWalls` and
`TextureId` are defined outside the given material, so they stay abstract
as type parameters `W` and `T`. -/
structure Tile (W T P : Type) where
  ttype : TileType
  object : Option (TileObject P)
  walls : W
  texture_id : Option T

/-- Embeds `Tile::with_type(ttype)` (src/map/floor_map/tile.rs): object and
texture default to `None`; the wall state defaults. -/
def Tile.with_type {W T P : Type} [Inhabited W] (ttype : TileType) : Tile W T P :=
  ⟨ttype, none, default, none⟩

/-- Embeds `Tile::has_object` (src/map/floor_map/tile.rs). -/
def Tile.has_object {W T P : Type} (t : Tile W T P) : Bool :=
  t.object.isSome

/-- Embeds `Tile::place_object(object)` (src/map/floor_map/tile.rs):
`self.object = Some(object)`. -/
def Tile.place_object {W T P : Type} (t : Tile W T P) (object : TileObject P) : Tile W T P :=
  { t with object := some object }

/-- A sample empty 5×5 map with tile size 10 (the spec's concrete clamping
scenario), used to instantiate universally quantified theorems. -/
def demoEmpty : FloorMap := FloorMap.new ⟨5, 5⟩ 10

/-- A sample room boundary. -/
def demoBoundary1 : TileRect := ⟨⟨0, 0⟩, ⟨2, 2⟩⟩

/-- A second sample room boundary. -/
def demoBoundary2 : TileRect := ⟨⟨3, 3⟩, ⟨1, 1⟩⟩

/-- The sample map after one `add_room` call. -/
def demoOneRoom : FloorMap := (demoEmpty.add_room demoBoundary1).2

/-- The inclusive end indices (row, col) of a tile window returned by
`grid_area_within`: `start + size - 1` in each dimension. -/
def area_end (r : Option (TilePos × GridSize)) : Option (Nat × Nat) :=
  r.map fun ps => (ps.1.row + ps.2.rows - 1, ps.1.col + ps.2.cols - 1)

/-- Refinement definition following the claim's words, NOT the source: end
row/col computed as `clamp((origin + size) / tile_size)` where `origin` is
the bounds rectangle's original, unclamped (possibly negative) origin,
using Rust's truncating signed division, clamped to
`[0, rows_len-1] / [0, cols_len-1]`. Compared against
`FloorMap.grid_area_within` below. -/
def claimed_area_end (m : FloorMap) (bounds : Rect) : Nat × Nat :=
  ((min (max (Int.tdiv (bounds.y + bounds.h) (m.tile_size : Int)) 0)
      ((m.grid.rows_len : Int) - 1)).toNat,
   (min (max (Int.tdiv (bounds.x + bounds.w) (m.tile_size : Int)) 0)
      ((m.grid.cols_len : Int) - 1)).toNat)

/-- The spec's exact-area scenario: a 10×10 grid with tile size 16, one
room with boundary tiles (2,2)–(4,4), all nine boundary cells carved as
that room's floor except the corner (4,4), which is a wall. -/
def demoCarved : FloorMap where
  grid := ⟨⟨10, 10⟩, fun r c =>
    if r = 4 ∧ c = 4 then MapTile.Wall none
    else if 2 ≤ r ∧ r ≤ 4 ∧ 2 ≤ c ∧ c ≤ 4 then MapTile.Floor ⟨0⟩
    else MapTile.Empty⟩
  rooms := [Room.new ⟨⟨2, 2⟩, ⟨3, 3⟩⟩]
  tile_size := 16

/-! ## Theorems -/

/-- A `TileRect` covers exactly `rows * cols` tile positions. -/
theorem TileRect.length_tile_positions (r : TileRect) :
    r.tile_positions.length = r.dimensions.rows * r.dimensions.cols := by
  simp [TileRect.tile_positions, List.length_flatMap, Function.comp_def,
    List.map_const', List.sum_replicate, smul_eq_mul]

/-- Embeds `is_room_floor` tests classification `Floor` with a matching room id. -/
theorem MapTile.is_room_floor_eq_decide (t : MapTile) (id : RoomId) :
    t.is_room_floor id = decide (t = MapTile.Floor id) := by
  cases t <;> simp [MapTile.is_room_floor]

/-- Monotonicity of the two divisions feeding `grid_area_within`'s start
and end indices. -/
theorem div_start_le_div_end (y h ts : Nat) : y / ts ≤ (y + h) / ts :=
  Nat.div_le_div_right (Nat.le_add_right _ _)

/-- Arithmetic of the clamped inclusive window in one dimension: the start
index stays within `[0, R-1]`, the size `end - start + 1` is at least one,
the end index `start + size - 1` stays within `[0, R-1]`, and it equals the
clamp of the unclamped end index `d2`. -/
theorem clamp_window_spec (d1 d2 R : Nat) (hR : 0 < R) (hd : d1 ≤ d2) :
    min (max d1 0) (R - 1) ≤ R - 1 ∧
    1 ≤ min (max d2 0) (R - 1) - min (max d1 0) (R - 1) + 1 ∧
    min (max d1 0) (R - 1) +
      (min (max d2 0) (R - 1) - min (max d1 0) (R - 1) + 1) - 1 ≤ R - 1 ∧
    min (max d1 0) (R - 1) +
      (min (max d2 0) (R - 1) - min (max d1 0) (R - 1) + 1) - 1 = min d2 (R - 1) := by
  omega

/-- C1 counterexample: on a 5×5 grid with tile size 10 and the bounds
rectangle {x:-15, y:-15, w:10, h:10}, the window returned by
`grid_area_within` has end indices (1,1), not the claimed
`clamp((origin + size) / tile_size)` = (0,0) computed from the original,
unclamped origin. -/
theorem grid_area_within_claimed_end_cex :
    area_end (demoEmpty.grid_area_within ⟨-15, -15, 10, 10⟩) = some (1, 1) ∧
    claimed_area_end demoEmpty ⟨-15, -15, 10, 10⟩ = (0, 0) ∧
    area_end (demoEmpty.grid_area_within ⟨-15, -15, 10, 10⟩) ≠
      some (claimed_area_end demoEmpty ⟨-15, -15, 10, 10⟩) := by
  refine ⟨by decide, by decide, by decide⟩

/-- C1 amended: the end row and end col of the window returned by
`grid_area_within` equal `clamp((clamped_origin + size) / tile_size)`,
where the origin is first clamped to zero (the same clamped origin the
start indices use), and the clamp is to `[0, rows_len-1] / [0, cols_len-1]`. -/
theorem grid_area_within_end_indices (m : FloorMap) (bounds : Rect)
    (hts : 0 < m.tile_size) (hr : 0 < m.grid.rows_len) (hc : 0 < m.grid.cols_len) :
    area_end (m.grid_area_within bounds) = some
      (min (((max bounds.y 0).toNat + bounds.h) / m.tile_size) (m.grid.rows_len - 1),
       min (((max bounds.x 0).toNat + bounds.w) / m.tile_size) (m.grid.cols_len - 1)) := by
  have hrow := (clamp_window_spec ((max bounds.y 0).toNat / m.tile_size)
    (((max bounds.y 0).toNat + bounds.h) / m.tile_size) m.grid.rows_len hr
    (div_start_le_div_end _ _ _)).2.2.2
  have hcol := (clamp_window_spec ((max bounds.x 0).toNat / m.tile_size)
    (((max bounds.x 0).toNat + bounds.w) / m.tile_size) m.grid.cols_len hc
    (div_start_le_div_end _ _ _)).2.2.2
  simp only [FloorMap.grid_area_within]
  rw [if_neg (by omega), if_neg (by omega)]
  simp only [area_end, Option.map_some', Option.some.injEq, Prod.mk.injEq]
  exact ⟨hrow, hcol⟩

/-- C1 amended witness: the end-index formula evaluated on the concrete
clamping scenario. -/
theorem grid_area_within_end_indices_witness :
    area_end (demoEmpty.grid_area_within ⟨-15, -15, 10, 10⟩) = some
      (min (((max (-15 : Int) 0).toNat + 10) / demoEmpty.tile_size)
        (demoEmpty.grid.rows_len - 1),
       min (((max (-15 : Int) 0).toNat + 10) / demoEmpty.tile_size)
        (demoEmpty.grid.cols_len - 1)) :=
  grid_area_within_end_indices demoEmpty ⟨-15, -15, 10, 10⟩ (by decide) (by decide) (by decide)

/-- C2: for every pixel rectangle `bounds` — also ones partially or fully
outside the grid — `grid_area_within` returns (never panics) a window whose
start and end indices lie in `[0, rows_len-1] × [0, cols_len-1]` and whose
size is at least 1×1; concretely, on the 5×5 grid with tile size 10 the
bounds {x:-15, y:-15, w:10, h:10} yield start (0,0) and size 2×2. -/
theorem grid_area_within_in_bounds (m : FloorMap) (bounds : Rect)
    (hts : 0 < m.tile_size) (hr : 0 < m.grid.rows_len) (hc : 0 < m.grid.cols_len) :
    (∃ pos size, m.grid_area_within bounds = some (pos, size) ∧
      pos.row ≤ m.grid.rows_len - 1 ∧ pos.col ≤ m.grid.cols_len - 1 ∧
      1 ≤ size.rows ∧ 1 ≤ size.cols ∧
      pos.row + size.rows - 1 ≤ m.grid.rows_len - 1 ∧
      pos.col + size.cols - 1 ≤ m.grid.cols_len - 1) ∧
    demoEmpty.grid_area_within ⟨-15, -15, 10, 10⟩ = some (⟨0, 0⟩, ⟨2, 2⟩) := by
  refine ⟨?_, by decide⟩
  obtain ⟨hr1, hr2, hr3, -⟩ := clamp_window_spec ((max bounds.y 0).toNat / m.tile_size)
    (((max bounds.y 0).toNat + bounds.h) / m.tile_size) m.grid.rows_len hr
    (div_start_le_div_end _ _ _)
  obtain ⟨hc1, hc2, hc3, -⟩ := clamp_window_spec ((max bounds.x 0).toNat / m.tile_size)
    (((max bounds.x 0).toNat + bounds.w) / m.tile_size) m.grid.cols_len hc
    (div_start_le_div_end _ _ _)
  simp only [FloorMap.grid_area_within]
  rw [if_neg (by omega), if_neg (by omega)]
  exact ⟨_, _, rfl, hr1, hc1, hr2, hc2, hr3, hc3⟩

/-- C2 witness: the clamping scenario instantiating the safety theorem. -/
theorem grid_area_within_in_bounds_witness :
    (∃ pos size, demoEmpty.grid_area_within ⟨17, 60, 100, 100⟩ = some (pos, size) ∧
      pos.row ≤ demoEmpty.grid.rows_len - 1 ∧ pos.col ≤ demoEmpty.grid.cols_len - 1 ∧
      1 ≤ size.rows ∧ 1 ≤ size.cols ∧
      pos.row + size.rows - 1 ≤ demoEmpty.grid.rows_len - 1 ∧
      pos.col + size.cols - 1 ≤ demoEmpty.grid.cols_len - 1) ∧
    demoEmpty.grid_area_within ⟨-15, -15, 10, 10⟩ = some (⟨0, 0⟩, ⟨2, 2⟩) :=
  grid_area_within_in_bounds demoEmpty ⟨17, 60, 100, 100⟩ (by decide) (by decide) (by decide)

/-- C6: for every valid tile position of the grid, converting it to its
world-space top-left pixel point and back through `world_to_tile_pos`
returns exactly that position, and `get` succeeds on it. -/
theorem world_to_tile_pos_round_trip (m : FloorMap) (p : TilePos)
    (hts : 0 < m.tile_size) (hr : p.row < m.grid.rows_len) (hc : p.col < m.grid.cols_len) :
    m.world_to_tile_pos (p.top_left (m.tile_size : Int)) = some p ∧
    (m.grid.get p).isSome := by
  constructor
  · have hcol : ((p.col : Int) * (m.tile_size : Int)).toNat / m.tile_size = p.col := by
      rw [← Nat.cast_mul, Int.toNat_natCast, Nat.mul_div_cancel _ hts]
    have hrow : ((p.row : Int) * (m.tile_size : Int)).toNat / m.tile_size = p.row := by
      rw [← Nat.cast_mul, Int.toNat_natCast, Nat.mul_div_cancel _ hts]
    simp only [FloorMap.world_to_tile_pos, TilePos.top_left]
    rw [if_pos ⟨mul_nonneg (Int.natCast_nonneg _) (Int.natCast_nonneg _),
        mul_nonneg (Int.natCast_nonneg _) (Int.natCast_nonneg _)⟩,
      if_neg (by omega)]
    rw [if_pos (by rw [hrow, hcol]; exact ⟨hr, hc⟩)]
    simp [hrow, hcol]
  · simp only [TileGrid.get, TileGrid.rows_len, TileGrid.cols_len] at *
    rw [if_pos ⟨hr, hc⟩]
    rfl

/-- C6 witness: the round trip at tile (2,3) of the 5×5 sample map. -/
theorem world_to_tile_pos_round_trip_witness :
    demoEmpty.world_to_tile_pos (TilePos.top_left ⟨2, 3⟩ (demoEmpty.tile_size : Int))
      = some ⟨2, 3⟩ ∧
    (demoEmpty.grid.get ⟨2, 3⟩).isSome :=
  world_to_tile_pos_round_trip demoEmpty ⟨2, 3⟩ (by decide) (by decide) (by decide)

/-- C3: `room_exact_area(id)` counts exactly the tile positions inside the
room's boundary whose cell is classified `Floor` with room id `id`; that
count is at most `width * height` of the boundary, with equality iff every
boundary cell is that room's floor; and in the carved 10×10 scenario with
eight of nine boundary cells carved as floor, the exact area is 8. -/
theorem room_exact_area_counts_floor (m : FloorMap) (id : RoomId) (r : Room)
    (hroom : m.room id = some r)
    (hin : ∀ p ∈ r.boundary.tile_positions,
      p.row < m.grid.dim.rows ∧ p.col < m.grid.dim.cols) :
    m.room_exact_area id = some ((r.boundary.tile_positions.filter fun p =>
        decide (m.grid.cells p.row p.col = MapTile.Floor id)).length) ∧
    ((r.boundary.tile_positions.filter fun p =>
        decide (m.grid.cells p.row p.col = MapTile.Floor id)).length
      ≤ r.boundary.dimensions.cols * r.boundary.dimensions.rows) ∧
    ((r.boundary.tile_positions.filter fun p =>
        decide (m.grid.cells p.row p.col = MapTile.Floor id)).length
        = r.boundary.dimensions.cols * r.boundary.dimensions.rows ↔
      ∀ p ∈ r.boundary.tile_positions, m.grid.cells p.row p.col = MapTile.Floor id) ∧
    demoCarved.room_exact_area ⟨0⟩ = some 8 := by
  have hlen := TileRect.length_tile_positions r.boundary
  have hgets : ∀ p ∈ r.boundary.tile_positions, m.grid.get p = some (m.grid.cells p.row p.col) := by
    intro p hp
    simp [TileGrid.get, (hin p hp).1, (hin p hp).2]
  refine ⟨?_, ?_, ?_, by decide⟩
  · simp only [FloorMap.room_exact_area, hroom]
    rw [if_pos (List.all_eq_true.mpr fun p hp => by simp [hgets p hp])]
    congr 1
    refine congrArg _ (List.filter_congr fun p hp => ?_)
    rw [hgets p hp]
    simp [MapTile.is_room_floor_eq_decide]
  · calc (r.boundary.tile_positions.filter fun p =>
          decide (m.grid.cells p.row p.col = MapTile.Floor id)).length
        ≤ r.boundary.tile_positions.length := List.length_filter_le _ _
      _ = _ := by rw [hlen, Nat.mul_comm]
  · rw [← Nat.mul_comm r.boundary.dimensions.rows r.boundary.dimensions.cols, ← hlen]
    constructor
    · intro hfl p hp
      have := (List.filter_length_eq_length.mp hfl) p hp
      simpa using this
    · intro hall
      rw [List.filter_length_eq_length.mpr fun p hp => by simpa using hall p hp]

/-- C3 witness: in the carved scenario the exact area equals the floor-cell
count of the boundary, which evaluates to 8. -/
theorem room_exact_area_counts_floor_witness :
    demoCarved.room_exact_area ⟨0⟩ = some
      (((Room.new ⟨⟨2, 2⟩, ⟨3, 3⟩⟩).boundary.tile_positions.filter fun p =>
        decide (demoCarved.grid.cells p.row p.col = MapTile.Floor ⟨0⟩)).length) ∧
    demoCarved.room_exact_area ⟨0⟩ = some 8 := by
  have h := room_exact_area_counts_floor demoCarved ⟨0⟩ (Room.new ⟨⟨2, 2⟩, ⟨3, 3⟩⟩)
    rfl (by decide)
  exact ⟨h.1, h.2.2.2⟩

/-- C4: `tile_rect(top_left, bottom_right)` fails fast (assertion-style
failure, returning no rectangle) whenever `top_left.row > bottom_right.row`
or `top_left.col > bottom_right.col`. -/
theorem tile_rect_inverted_corners_fail (m : FloorMap) (tl br : TilePos)
    (h : br.row < tl.row ∨ br.col < tl.col) :
    m.tile_rect tl br = none := by
  unfold FloorMap.tile_rect
  rw [if_neg (by omega)]

/-- C4 witness: a concrete inverted pair of corners aborts. -/
theorem tile_rect_inverted_corners_fail_witness :
    (FloorMap.new ⟨5, 5⟩ 10).tile_rect ⟨3, 1⟩ ⟨1, 3⟩ = none :=
  tile_rect_inverted_corners_fail _ _ _ (Or.inl (by decide))

/-- C5: `world_to_tile_pos(point)` fails fast for every point with a
negative coordinate, and for every point whose computed row or col is at
or past `rows_len`/`cols_len`; it never returns a clamped value. -/
theorem world_to_tile_pos_out_of_grid_fails (m : FloorMap) (p : Point) :
    (p.x < 0 ∨ p.y < 0 → m.world_to_tile_pos p = none) ∧
    (0 < m.tile_size →
      m.grid.rows_len ≤ p.y.toNat / m.tile_size ∨
        m.grid.cols_len ≤ p.x.toNat / m.tile_size →
      m.world_to_tile_pos p = none) := by
  refine ⟨fun h => ?_, fun hts h => ?_⟩ <;>
    simp only [FloorMap.world_to_tile_pos] <;>
    split_ifs <;> first | rfl | omega

/-- C5 witness: on a 5×5 grid with tile size 10, a negative point and a
point past the pixel extent both abort. -/
theorem world_to_tile_pos_out_of_grid_fails_witness :
    (FloorMap.new ⟨5, 5⟩ 10).world_to_tile_pos ⟨-1, 3⟩ = none ∧
    (FloorMap.new ⟨5, 5⟩ 10).world_to_tile_pos ⟨50, 0⟩ = none :=
  ⟨(world_to_tile_pos_out_of_grid_fails _ _).1 (Or.inl (by decide)),
   (world_to_tile_pos_out_of_grid_fails _ _).2 (by decide) (Or.inr (by decide))⟩

/-- C8: with `tile_size = 0`, every call to `grid_area_within` and every
call to `world_to_tile_pos` panics (division by zero on the conversion
path); `tile_size ≥ 1` is an unstated precondition of the conversion
surface. -/
theorem tile_size_zero_div_panics (m : FloorMap) (h : m.tile_size = 0) :
    (∀ bounds, m.grid_area_within bounds = none) ∧
    (∀ p, m.world_to_tile_pos p = none) := by
  constructor
  · intro bounds
    simp [FloorMap.grid_area_within, h]
  · intro p
    simp [FloorMap.world_to_tile_pos, h]

/-- C8 witness: a concrete zero-tile-size map panics on both queries. -/
theorem tile_size_zero_div_panics_witness :
    (FloorMap.new ⟨5, 5⟩ 0).grid_area_within ⟨0, 0, 10, 10⟩ = none ∧
    (FloorMap.new ⟨5, 5⟩ 0).world_to_tile_pos ⟨3, 3⟩ = none :=
  ⟨(tile_size_zero_div_panics _ rfl).1 _, (tile_size_zero_div_panics _ rfl).2 _⟩

/-- C7: `add_room` issuance is append-only and monotonic: each call returns
the id equal to the previous room count (so the k-th call from an empty map
returns index k-1, distinct from every previously issued id), the new room
is created with the given boundary and the `Normal` room type, later
`add_room` calls leave lookups of earlier ids unchanged, `rooms_list`
yields the issued pairs in append order, and mutation through `room_mut`
of one id leaves every other id's lookup unchanged. -/
theorem add_room_append_only (m : FloorMap) (b : TileRect) :
    (m.add_room b).1 = ⟨m.nrooms⟩ ∧
    ((m.add_room b).2).room (m.add_room b).1 = some (Room.new b) ∧
    (Room.new b).boundary = b ∧
    (Room.new b).room_type = RoomType.Normal ∧
    (∀ i : Nat, i < m.nrooms → (⟨i⟩ : RoomId) ≠ (m.add_room b).1) ∧
    (∀ id : RoomId, id.val < m.nrooms → ((m.add_room b).2).room id = m.room id) ∧
    ((m.add_room b).2).rooms_list = m.rooms_list ++ [(⟨m.nrooms⟩, Room.new b)] ∧
    (∀ (id id' : RoomId) (r' : Room) (m' : FloorMap),
      id'.val ≠ id.val → m.room_mut_set id' r' = some m' → m'.room id = m.room id) := by
  refine ⟨?_, ?_, rfl, rfl, ?_, ?_, ?_, ?_⟩
  · simp [FloorMap.add_room, FloorMap.nrooms]
  · simp [FloorMap.add_room, FloorMap.room, FloorMap.nrooms, List.getElem?_concat_length]
  · intro i hi heq
    simp [FloorMap.add_room, FloorMap.nrooms] at heq hi
    omega
  · intro id hid
    simp only [FloorMap.add_room, FloorMap.room, FloorMap.nrooms] at *
    exact List.getElem?_append_left hid
  · simp [FloorMap.add_room, FloorMap.rooms_list, FloorMap.nrooms, List.enum_append]
  · intro id id' r' m' hne hset
    simp only [FloorMap.room_mut_set] at hset
    split_ifs at hset
    cases hset
    simp only [FloorMap.room]
    exact List.getElem?_set_ne (by omega)

/-- C7 witness: a second `add_room` call on a one-room map issues id 1,
stores the new boundary with the `Normal` type, and leaves id 0's lookup
unchanged. -/
theorem add_room_append_only_witness :
    (demoOneRoom.add_room demoBoundary2).1 = ⟨1⟩ ∧
    ((demoOneRoom.add_room demoBoundary2).2).room ⟨1⟩ = some (Room.new demoBoundary2) ∧
    ((demoOneRoom.add_room demoBoundary2).2).room ⟨0⟩ = demoOneRoom.room ⟨0⟩ := by
  have h := add_room_append_only demoOneRoom demoBoundary2
  exact ⟨h.1, h.2.1, h.2.2.2.2.2.1 ⟨0⟩ (by decide)⟩

/-- C9: `room` and `room_mut` succeed exactly on issued ids (index strictly
below the room count) and fail on any other id; the room collection only
grows — `add_room` increments the count by one and `room_mut` mutation
preserves it — so an issued id stays valid. -/
theorem room_lookup_total_on_issued_ids (m : FloorMap) (id : RoomId) :
    (id.val < m.nrooms → (m.room id).isSome ∧ ∀ r, (m.room_mut_set id r).isSome) ∧
    (m.nrooms ≤ id.val → m.room id = none) ∧
    (∀ b, ((m.add_room b).2).nrooms = m.nrooms + 1) ∧
    (∀ (id' : RoomId) (r : Room) (m' : FloorMap),
      m.room_mut_set id' r = some m' → m'.nrooms = m.nrooms) := by
  refine ⟨fun h => ⟨?_, fun r => ?_⟩, fun h => ?_, fun b => ?_, fun id' r m' hset => ?_⟩
  · simp only [FloorMap.room, FloorMap.nrooms] at *
    simp [List.getElem?_eq_getElem h]
  · simp only [FloorMap.room_mut_set, FloorMap.nrooms] at *
    rw [if_pos h]
    rfl
  · simp only [FloorMap.room, FloorMap.nrooms] at *
    exact List.getElem?_eq_none h
  · simp [FloorMap.add_room, FloorMap.nrooms]
  · simp only [FloorMap.room_mut_set] at hset
    split_ifs at hset
    cases hset
    simp [FloorMap.nrooms, List.length_set]

/-- C9 witness: on a one-room map, id 0 resolves and can be mutated, id 1
panics, and the count grows by one on the next `add_room`. -/
theorem room_lookup_total_on_issued_ids_witness :
    (demoOneRoom.room ⟨0⟩).isSome ∧
    (demoOneRoom.room_mut_set ⟨0⟩ (Room.new demoBoundary2)).isSome ∧
    demoOneRoom.room ⟨1⟩ = none ∧
    ((demoOneRoom.add_room demoBoundary2).2).nrooms = demoOneRoom.nrooms + 1 := by
  have h0 := room_lookup_total_on_issued_ids demoOneRoom ⟨0⟩
  have h1 := room_lookup_total_on_issued_ids demoOneRoom ⟨1⟩
  exact ⟨(h0.1 (by decide)).1, (h0.1 (by decide)).2 _, h1.2.1 (by decide),
    h0.2.2.1 demoBoundary2⟩

/-- C10: `place_object` unconditionally overwrites the tile's object slot:
afterwards the object is `some object` and `has_object` is true — also when
an object was already present — and no other field changes. -/
theorem place_object_overwrites {W T P : Type} (t : Tile W T P) (object : TileObject P) :
    (t.place_object object).object = some object ∧
    (t.place_object object).has_object = true ∧
    (t.place_object object).ttype = t.ttype ∧
    (t.place_object object).walls = t.walls ∧
    (t.place_object object).texture_id = t.texture_id :=
  ⟨rfl, rfl, rfl, rfl, rfl⟩

end Caves
